import Mathlib

/-!
Verification of the PLURA frontend (Next.js/TypeScript client) against its
natural-language specification.

The embedding below shallowly models the client code:

* `src/frontend/src/types/index.ts` and the auto-sync type adapter — the data
  model (`RawLog`, `StructuralAnalysis`, `AckResponse`, `ConversationResponse`,
  `BackgroundTask`, `ResearchPlan`, recommendation types).
* The API client (`ApiClient.createLog`, `ApiClient.converse`) — request-body
  construction.
* The `ThoughtStream` component — `handleSubmit`, `fetchRecommendations`,
  `handleInputChange`, `handleDeepResearch`, `handleConfirmResearchPlan`,
  the structural-analysis polling effect (`pollForAnalysis` plus its timers)
  and the deep-research polling effect (`pollForResearchResult`).
* The `TimelineSection` component — `isStillAnalyzing`, `groupLogsByThread`.
* The Zustand store (`store.ts`) — `rawLogToMessages` and the recommendation
  store actions.

Conventions of the embedding:

* TypeScript `string | null` / optional fields become `Option String`;
  JavaScript truthiness of a nullable string (`if (s)`) is `strTruthy`.
* ISO-8601 timestamp strings are modelled as epoch milliseconds (`Nat`):
  the code only ever compares them through `new Date(x).getTime()`, and only
  ever produces them via `Date.now()` / `toISOString()`.
* React state updates become explicit state-passing: each handler is a pure
  function from the pre-state (plus the network result it awaits) to the
  post-state, paired with the request body it sends (`none` when no request
  is issued).
* `JSON` numbers that the verified claims never inspect (confidence scores,
  relevance scores) are elided from the records; every field the verified
  code reads is present.
-/

namespace Plura

/-! ## Data model (types/index.ts and the auto-sync adapter) -/

/-- The `LogIntent` union: `'log' | 'vent' | 'structure' | 'state'`
(`structure` is a Lean keyword, hence the trailing underscore). -/
inductive LogIntent where
  | log
  | vent
  | structure_
  | state
deriving DecidableEq

/-- The `ModelInfo`: model tier metadata attached to a structural analysis. -/
structure ModelInfo where
  tier : String
  model : String
  is_reasoning : Bool
deriving DecidableEq

/-- The `StructuralAnalysis`: result of the structural analyzer
(`relationship_type` is a string union in TS, modelled as `String`). -/
structure StructuralAnalysis where
  relationship_type : String
  relationship_reason : String
  updated_structural_issue : String
  probing_question : String
  model_info : Option ModelInfo := none
deriving DecidableEq

/-- The `deep_research` object inside `metadata_analysis` (auto-sync adapter
typing); all fields optional. -/
structure DeepResearchMeta where
  title : Option String := none
  topic : Option String := none
  scope : Option String := none
  summary : Option String := none
  details : Option String := none
  requested_by_user_id : Option String := none
  is_cache_hit : Option Bool := none
  cached_insight_id : Option String := none
deriving DecidableEq

/-- The `metadata_analysis` field of a raw log (nullable object with an optional
`deep_research` member). -/
structure MetadataAnalysis where
  deep_research : Option DeepResearchMeta := none
deriving DecidableEq

/-- The `RawLog`: a Layer-1 entry as returned by `GET /logs/:id`.
`created_at` / `updated_at` are epoch milliseconds (see the header comment).
`emotions` / `emotion_scores` / `topics` are never read by the verified code
and are elided. -/
structure RawLog where
  id : String
  user_id : String := ""
  thread_id : Option String := none
  content : String := ""
  content_type : String := "text"
  intent : Option LogIntent := none
  structural_analysis : Option StructuralAnalysis := none
  metadata_analysis : Option MetadataAnalysis := none
  assistant_reply : Option String := none
  is_analyzed : Bool := false
  is_processed_for_insight : Bool := false
  is_structure_analyzed : Bool := false
  created_at : Nat := 0
  updated_at : Nat := 0
deriving DecidableEq

/-- The `ResearchPlan`: the two-phase deep-research plan payload. -/
structure ResearchPlan where
  title : String
  topic : String
  scope : String
  perspectives : List String
  sanitized_query : String
deriving DecidableEq

/-- The `BackgroundTaskStatus` union. -/
inductive BackgroundTaskStatus where
  | queued
  | running
  | completed
  | failed
deriving DecidableEq

/-- The `BackgroundTask`: handle for heavy-lane background work. -/
structure BackgroundTask where
  task_id : String
  task_type : String := ""
  status : BackgroundTaskStatus := .queued
  message : String := ""
  result_log_id : Option String := none
deriving DecidableEq

/-- The `ConversationIntent` union. -/
inductive ConversationIntent where
  | chat
  | empathy
  | knowledge
  | deep_dive
  | brainstorm
  | probe
deriving DecidableEq

/-- The `ConversationRequest`: the JSON body `ApiClient.converse` posts to
`/conversation/`; `none` means the key is absent from the body. -/
structure ConversationRequest where
  message : String
  mode_override : Option ConversationIntent := none
  research_approved : Option Bool := none
  research_plan_confirmed : Option Bool := none
  research_plan : Option ResearchPlan := none
  thread_id : Option String := none
deriving DecidableEq

/-- The `ConversationResponse` fields read by the component. `background_task` is
the typed field; `background_task_info` is the untyped fallback field the
component reads via `(result as any).background_task_info`. Display-only
fields (`intent_badge`, `user_id`, `timestamp`, …) are elided. -/
structure ConversationResponse where
  response : String
  background_task : Option BackgroundTask := none
  background_task_info : Option BackgroundTask := none
  research_plan : Option ResearchPlan := none
deriving DecidableEq

/-- The `AckResponse`: response of `POST /logs/` (backend schema via the auto-sync
adapter; the test suite asserts `message`, `log_id`, `thread_id`, `timestamp`
are present). -/
structure AckResponse where
  message : String
  log_id : String
  thread_id : Option String := none
  timestamp : Nat := 0
  transcribed_text : Option String := none
  skip_structural_analysis : Option Bool := none
  conversation_reply : Option String := none
  requires_research_consent : Option Bool := none
  research_log_id : Option String := none
deriving DecidableEq

/-- The `RecommendationItem` (relevance score elided — never read). -/
structure RecommendationItem where
  id : String
  title : String := ""
  summary : String := ""
  topics : List String := []
  preview : String := ""
deriving DecidableEq

/-- The `RecommendationResponse` of `POST /recommendations/`. -/
structure RecommendationResponse where
  has_recommendations : Bool
  recommendations : List RecommendationItem
  trigger_reason : String := ""
  display_message : Option String := none
deriving DecidableEq

/-- JavaScript truthiness of a nullable/optional string: `null`, `undefined`
and `""` are falsy, every other string is truthy. -/
def strTruthy : Option String → Bool
  | none => false
  | some s => s != ""

/-! ## ChatMessage (store.ts) -/

/-- The `ChatMessage.type` union `'user' | 'system' | 'assistant' | 'ai-question'`. -/
inductive MsgType where
  | user
  | system
  | assistant
  | aiQuestion
deriving DecidableEq

/-- The `ChatMessage` as kept in the conversation store; optional fields default
to `none` (absent). -/
structure ChatMessage where
  id : String
  type : MsgType
  content : String
  timestamp : Nat
  logId : Option String := none
  relationshipType : Option String := none
  structuralAnalysis : Option StructuralAnalysis := none
  isVoiceInput : Option Bool := none
  requiresResearchConsent : Option Bool := none
  researchConsentConsumed : Option Bool := none
  researchPlan : Option ResearchPlan := none
  researchSummary : Option String := none
  researchDetails : Option String := none
  isResearchCacheHit : Option Bool := none
deriving DecidableEq

/-- First `msgs.push` of `rawLogToMessages` (store.ts): the user's own
message; voice-flagged via `log.content_type === 'voice'`. -/
def userMsgOf (log : RawLog) : ChatMessage :=
  { id := "user-" ++ log.id
    type := .user
    content := log.content
    timestamp := log.created_at
    logId := some log.id
    isVoiceInput := some (log.content_type == "voice") }

/-- Second `msgs.push` of `rawLogToMessages`: the assistant reply or the
fixed acknowledgment, chosen by JavaScript truthiness
(`log.assistant_reply ? 'assistant' : 'system'` and
`log.assistant_reply || '受け取りました。'`). -/
def ackMsgOf (log : RawLog) : ChatMessage :=
  { id := "ack-" ++ log.id
    type := if strTruthy log.assistant_reply then .assistant else .system
    content :=
      match log.assistant_reply with
      | some r => if r != "" then r else "受け取りました。"
      | none => "受け取りました。"
    timestamp := log.created_at
    logId := some log.id }

/-- Third `msgs.push` of `rawLogToMessages`: the probing question of the
structural analysis. -/
def aiMsgOf (log : RawLog) (sa : StructuralAnalysis) : ChatMessage :=
  { id := "ai-" ++ log.id
    type := .aiQuestion
    content := sa.probing_question
    timestamp := log.updated_at
    logId := some log.id
    relationshipType := some sa.relationship_type
    structuralAnalysis := some sa }

/-- The `rawLogToMessages` (store.ts): restores a stored `RawLog` as the chat
messages it corresponds to. The third message is pushed only under the
truthiness check `if (log.structural_analysis?.probing_question)`. -/
def rawLogToMessages (log : RawLog) : List ChatMessage :=
  let base := [userMsgOf log, ackMsgOf log]
  match log.structural_analysis with
  | some sa =>
    if sa.probing_question != "" then base ++ [aiMsgOf log sa]
    else base
  | none => base

/-! ## ApiClient request bodies (api.ts) -/

/-- JSON body of `POST /logs/` built by `ApiClient.createLog`; `thread_id :=
none` means the key is omitted from the body. -/
structure CreateLogBody where
  content : String
  content_type : String
  thread_id : Option String := none
deriving DecidableEq

/-- The `ApiClient.createLog` body construction: the `thread_id` key is added only
when `thread_id != null && thread_id !== ''`. -/
def createLogBody (content : String) (content_type : String)
    (thread_id : Option String) : CreateLogBody :=
  { content := content
    content_type := content_type
    thread_id :=
      match thread_id with
      | some t => if t != "" then some t else none
      | none => none }

/-- The `options` object accepted by `ApiClient.converse`. -/
structure ConverseOptions where
  modeOverride : Option ConversationIntent := none
  researchApproved : Bool := false
  researchPlanConfirmed : Bool := false
  researchPlan : Option ResearchPlan := none
  threadId : Option String := none

/-- The `ApiClient.converse` body construction: each key is added only when the
corresponding option is truthy (`research_approved` / `research_plan_confirmed`
are set to the literal `true`; `thread_id` is skipped for `undefined` and for
the empty string, which is falsy in JavaScript). -/
def converseBody (inputText : String) (o : ConverseOptions) : ConversationRequest :=
  { message := inputText
    mode_override := o.modeOverride
    research_approved := if o.researchApproved then some true else none
    research_plan_confirmed := if o.researchPlanConfirmed then some true else none
    research_plan := o.researchPlan
    thread_id :=
      match o.threadId with
      | some t => if t != "" then some t else none
      | none => none }

/-! ## TimelineSection (isStillAnalyzing / groupLogsByThread) -/

/-- The `ANALYSIS_TIMEOUT_MS = 2 * 60 * 1000`: stop the timeline spinner for logs
older than two minutes. -/
def ANALYSIS_TIMEOUT_MS : Nat := 2 * 60 * 1000

/-- The `isStillAnalyzing` (TimelineSection): whether a log should still show the
analysis spinner. `now` is `Date.now()`. The JavaScript age computation
`Date.now() - new Date(log.created_at).getTime()` can be negative for a log
created in the future, in which case `age > ANALYSIS_TIMEOUT_MS` is false —
truncated `Nat` subtraction gives the same branch. -/
def isStillAnalyzing (now : Nat) (log : RawLog) : Bool :=
  if log.is_analyzed && log.is_structure_analyzed then false
  else if ANALYSIS_TIMEOUT_MS < now - log.created_at then false
  else if !log.is_analyzed then true
  else if log.intent == some LogIntent.state then false
  else !log.is_structure_analyzed

/-- The grouping key used by `groupLogsByThread`: `log.thread_id ?? log.id`. -/
def threadKey (log : RawLog) : String := log.thread_id.getD log.id

/-- One step of populating the insertion-ordered thread map (`Map.set` /
`push` in `groupLogsByThread`): append `log` to the group keyed `key`,
creating the group at the end when absent (JavaScript `Map` preserves
insertion order). -/
def pushLog (key : String) (log : RawLog) :
    List (String × List RawLog) → List (String × List RawLog)
  | [] => [(key, [log])]
  | (k, ls) :: rest =>
    if k = key then (k, ls ++ [log]) :: rest
    else (k, ls) :: pushLog key log rest

/-- The `byThread` map of `groupLogsByThread`, as an insertion-ordered
association list. -/
def buildThreads (items : List RawLog) : List (String × List RawLog) :=
  items.foldl (fun acc log => pushLog (threadKey log) log acc) []

/-- Ascending order on logs by `created_at` (the comparator
`(a, b) => new Date(a.created_at).getTime() - new Date(b.created_at).getTime()`). -/
def logLE (a b : RawLog) : Prop := a.created_at ≤ b.created_at

instance : DecidableRel logLE := fun a b => Nat.decLe _ _

instance : IsTotal RawLog logLE := ⟨fun a b => Nat.le_total a.created_at b.created_at⟩

instance : IsTrans RawLog logLE := ⟨fun _ _ _ h h' => Nat.le_trans h h'⟩

/-- One output group of `groupLogsByThread`. -/
structure ThreadGroup where
  threadKey : String
  logs : List RawLog
deriving DecidableEq

/-- The `created_at` of the last log of a group — after the per-group ascending
sort this is the group's newest log (`a.logs[a.logs.length - 1].created_at`). -/
def lastCreated (g : ThreadGroup) : Nat :=
  ((g.logs.getLast?).map RawLog.created_at).getD 0

/-- Descending order on groups by the `created_at` of their last log (the
comparator `(a, b) => bLast - aLast`). -/
def groupLE (a b : ThreadGroup) : Prop := lastCreated b ≤ lastCreated a

instance : DecidableRel groupLE := fun a b => Nat.decLe _ _

instance : IsTotal ThreadGroup groupLE := ⟨fun a b => Nat.le_total (lastCreated b) (lastCreated a)⟩

instance : IsTrans ThreadGroup groupLE := ⟨fun _ _ _ h h' => Nat.le_trans h' h⟩

/-- The `groupLogsByThread` (TimelineSection): group the page's logs by
`thread_id ?? id`, sort each group ascending by `created_at`, then sort the
groups descending by the `created_at` of their newest log. JavaScript
`Array.prototype.sort` is a stable sort, modelled by `List.insertionSort`. -/
def groupLogsByThread (items : List RawLog) : List ThreadGroup :=
  let threads := (buildThreads items).map
    (fun p => ThreadGroup.mk p.1 (List.insertionSort logLE p.2))
  List.insertionSort groupLE threads

/-! ## Recommendation store (store.ts) and fetchRecommendations / debounce
(ThoughtStream) -/

/-- The recommendation slice of the Zustand store. -/
structure RecommendationState where
  recommendations : List RecommendationItem := []
  isVisible : Bool := false
  displayMessage : Option String := none
deriving DecidableEq

/-- Store action `setRecommendations(items, message)`:
`isVisible` becomes `items.length > 0`. -/
def setRecommendationsState (items : List RecommendationItem)
    (msg : Option String) : RecommendationState :=
  { recommendations := items
    isVisible := decide (0 < items.length)
    displayMessage := msg }

/-- Store action `clearRecommendations()`. -/
def clearRecommendationsState : RecommendationState :=
  { recommendations := [], isVisible := false, displayMessage := none }

/-- The `fetchRecommendations` (ThoughtStream): below 20 characters the current
recommendations are cleared and no request is sent; otherwise
`POST /recommendations/` is awaited (`result`), a successful response updates
or clears the store, and any request failure is caught by an empty `catch`
block — the store is left untouched and nothing is surfaced. The returned
`Bool` records whether the network request was issued. -/
def fetchRecommendations (text : String)
    (result : Except Unit RecommendationResponse)
    (s : RecommendationState) : RecommendationState × Bool :=
  if text.length < 20 then (clearRecommendationsState, false)
  else
    match result with
    | .ok r =>
      if r.has_recommendations then
        (setRecommendationsState r.recommendations r.display_message, true)
      else (clearRecommendationsState, true)
    | .error _ => (s, true)

/-- The input box plus its pending debounce timer: `debounce = some (t, v)`
means a timer will call `fetchRecommendations v` at time `t`. -/
structure InputDebounceState where
  input : String := ""
  debounce : Option (Nat × String) := none
deriving DecidableEq

/-- The `handleInputChange` (ThoughtStream): store the new value, cancel any
pending debounce timer (`clearTimeout`) and schedule `fetchRecommendations`
500 ms later. -/
def handleInputChange (s : InputDebounceState) (value : String)
    (now : Nat) : InputDebounceState :=
  { input := value, debounce := some (now + 500, value) }

/-! ## ThoughtStream component state and handlers -/

/-- JavaScript `String.prototype.trim`: strip leading and trailing whitespace.
Modelled on the character list so that it is computable by the kernel (the
built-in `String.trim` is compiled code that kernel reduction cannot
evaluate). -/
def jsTrim (s : String) : String :=
  ⟨((s.data.dropWhile Char.isWhitespace).reverse.dropWhile Char.isWhitespace).reverse⟩

/-- Status of one displayed analysis step. -/
inductive StepStatus where
  | pending
  | in_progress
  | completed
deriving DecidableEq

/-- One entry of the `analysisSteps` display. -/
structure AnalysisStep where
  id : String
  label : String
  status : StepStatus
deriving DecidableEq

/-- The ThoughtStream component state relevant to the verified handlers. -/
structure ClientState where
  messages : List ChatMessage := []
  input : String := ""
  isSubmitting : Bool := false
  isResearching : Bool := false
  researchLogId : Option String := none
  continuingThreadId : Option String := none
  pendingLogIds : List String := []
  analysisSteps : List AnalysisStep := []
deriving DecidableEq

/-- The `initializeAnalysisSteps` (ThoughtStream): the four fixed steps shown when
a structural-analysis wait starts. -/
def initialAnalysisSteps : List AnalysisStep :=
  [ { id := "receive", label := "入力を受け取りました", status := .completed },
    { id := "context", label := "文脈を分析中... (Fast)", status := .in_progress },
    { id := "structure", label := "深い思考で構造を分析中... (Deep)", status := .pending },
    { id := "question", label := "深掘りの問いを生成中...", status := .pending } ]

/-- The `handleSubmit` (ThoughtStream): guard on empty trimmed input or an
in-flight submission; post `createLog(submittedText, 'text',
continuingThreadId ?? undefined)`; on success append the reply message
(assistant reply if truthy, otherwise the ack `message` as a system message),
store `response.thread_id` as the continuing thread id, then either start
deep-research polling (`research_log_id` truthy) or start structural-analysis
polling (unless `skip_structural_analysis`); on failure append the fixed
save-error message. Returns the new state and the request body sent (`none`
when the guard fired). `now` is `Date.now()`. -/
def handleSubmit (s : ClientState) (result : Except Unit AckResponse)
    (now : Nat) : ClientState × Option CreateLogBody :=
  if jsTrim s.input = "" ∨ s.isSubmitting then (s, none)
  else
    let submittedText := jsTrim s.input
    let userMessage : ChatMessage :=
      { id := toString now, type := .user, content := submittedText, timestamp := now }
    let s1 := { s with
      messages := s.messages ++ [userMessage]
      input := ""
      isSubmitting := true }
    let body := createLogBody submittedText "text" s.continuingThreadId
    match result with
    | .ok response =>
      let replyContent :=
        match response.conversation_reply with
        | some r => if r != "" then r else response.message
        | none => response.message
      let replyType : MsgType :=
        if strTruthy response.conversation_reply then .assistant else .system
      let replyMessage : ChatMessage :=
        { id := response.log_id, type := replyType, content := replyContent
          timestamp := now, logId := some response.log_id
          requiresResearchConsent := response.requires_research_consent }
      let s2 := { s1 with
        messages := s1.messages ++ [replyMessage]
        continuingThreadId := response.thread_id }
      let s3 :=
        if strTruthy response.research_log_id then
          { s2 with researchLogId := response.research_log_id, isResearching := true }
        else if response.skip_structural_analysis ≠ some true then
          { s2 with
            pendingLogIds := s2.pendingLogIds ++ [response.log_id]
            analysisSteps := initialAnalysisSteps }
        else s2
      ({ s3 with isSubmitting := false }, some body)
    | .error _ =>
      let errorMessage : ChatMessage :=
        { id := toString now, type := .system
          content := "保存に失敗しました。もう一度お試しください。", timestamp := now }
      ({ s1 with
          messages := s1.messages ++ [errorMessage]
          isSubmitting := false }, some body)

/-! ## Deep-research handlers (two-phase flow) -/

/-- The lookup `messages.find(m => m.logId === message.logId && m.type ===
'user')` in `handleDeepResearch`. -/
def findUserMessage (messages : List ChatMessage) (logId : Option String) :
    Option ChatMessage :=
  messages.find? (fun m => m.logId == logId && m.type == MsgType.user)

/-- The `handleDeepResearch` (ThoughtStream, Deep Research step 1 「提案」): if a
research run is already in flight, do nothing; otherwise consume the consent
button, show the preparing notice, send one `converse` request with
`researchApproved := true` (no plan, no confirmation flag), and on success
replace the notice with the returned research-plan card — without touching
`isResearching` or `researchLogId`. `result` is the awaited response of the
request; `now` is `Date.now()`. -/
def handleDeepResearch (s : ClientState) (message : ChatMessage)
    (result : Except Unit ConversationResponse) (now : Nat) :
    ClientState × Option ConversationRequest :=
  if s.isResearching then (s, none)
  else
    let msgs1 := s.messages.map (fun m =>
      if m.id = message.id then
        { m with requiresResearchConsent := some false
                 researchConsentConsumed := some true }
      else m)
    let preparingMessage : ChatMessage :=
      { id := "researching-" ++ toString now, type := .system
        content := "調査計画を作成しています...", timestamp := now }
    let msgs2 := msgs1 ++ [preparingMessage]
    let userMsg := findUserMessage s.messages message.logId
    let queryText :=
      match userMsg with
      | some m => if m.content != "" then m.content else message.content
      | none => message.content
    let req := converseBody queryText
      { researchApproved := true, threadId := s.continuingThreadId }
    match result with
    | .ok r =>
      let planMessage : ChatMessage :=
        { id := "research-plan-" ++ toString now, type := .assistant
          content := r.response, timestamp := now
          researchPlan := r.research_plan }
      ({ s with messages :=
          (msgs2.filter (fun m => !(m.id.startsWith "researching-"))) ++ [planMessage] },
       some req)
    | .error _ =>
      let errorMsg : ChatMessage :=
        { id := "research-error-" ++ toString now, type := .system
          content := "調査計画の作成に失敗しました。もう一度お試しください。"
          timestamp := now }
      ({ s with messages :=
          (msgs2.filter (fun m => !(m.id.startsWith "researching-"))) ++ [errorMsg] },
       some req)

/-- The `handleConfirmResearchPlan` (ThoughtStream, Deep Research step 2 「確認」):
if a research run is already in flight, do nothing; otherwise set
`isResearching`, strip the plan card's buttons, show the executing notice,
send one `converse` request with `researchPlanConfirmed := true` and the exact
plan payload, and on success store the background task's `result_log_id` (the
typed `background_task` field, falling back to `background_task_info`) and
replace the notice with the immediate acknowledgment; on failure show the
fixed error message and reset `isResearching`. -/
def handleConfirmResearchPlan (s : ClientState) (plan : ResearchPlan)
    (planMessageId : String) (result : Except Unit ConversationResponse)
    (now : Nat) : ClientState × Option ConversationRequest :=
  if s.isResearching then (s, none)
  else
    let executingMessage : ChatMessage :=
      { id := "researching-" ++ toString now, type := .system
        content := "「" ++ plan.title ++ "」の調査を開始しました...", timestamp := now }
    let updatedMsgs := s.messages.map (fun m =>
      if m.id = planMessageId then { m with researchPlan := none } else m)
    let msgs2 := updatedMsgs ++ [executingMessage]
    let req := converseBody plan.sanitized_query
      { researchPlanConfirmed := true, researchPlan := some plan
        threadId := s.continuingThreadId }
    match result with
    | .ok r =>
      let bgTask := r.background_task.or r.background_task_info
      let newResearchLogId :=
        match bgTask with
        | some t =>
          match t.result_log_id with
          | some rid => if rid != "" then some rid else s.researchLogId
          | none => s.researchLogId
        | none => s.researchLogId
      let ackMessage : ChatMessage :=
        { id := "research-ack-" ++ toString now, type := .system
          content := r.response, timestamp := now }
      ({ s with
          isResearching := true
          researchLogId := newResearchLogId
          messages :=
            (msgs2.filter (fun m => !(m.id.startsWith "researching-"))) ++ [ackMessage] },
       some req)
    | .error _ =>
      let errorMsg : ChatMessage :=
        { id := "research-error-" ++ toString now, type := .system
          content := "Deep Research の実行に失敗しました。もう一度お試しください。"
          timestamp := now }
      ({ s with
          isResearching := false
          messages :=
            (msgs2.filter (fun m => !(m.id.startsWith "researching-"))) ++ [errorMsg] },
       some req)

/-! ## Polling effects (ThoughtStream) -/

/-- The timers a polling `useEffect` installs: a `setInterval` period and an
optional `setTimeout` give-up deadline. -/
structure PollingEffect where
  intervalMs : Nat
  timeoutMs : Option Nat
deriving DecidableEq

/-- Timers of the structural-analysis polling effect:
`setInterval(pollForAnalysis, 3000)` and the give-up
`setTimeout(…, 120_000)`. -/
def analysisPollingEffect : PollingEffect :=
  { intervalMs := 3000, timeoutMs := some 120000 }

/-- Timers of the deep-research polling effect:
`setInterval(pollForResearchResult, 3000)`; it installs no `setTimeout` —
there is no client-side give-up deadline. -/
def researchPollingEffect : PollingEffect :=
  { intervalMs := 3000, timeoutMs := none }

/-- The give-up `setTimeout` callback of the structural-analysis polling
effect: when log ids are still pending after two minutes, clear them and mark
every `in_progress` step as `completed` (plus a `console.warn`; no message is
added to the conversation). -/
def analysisPollTimeoutFire (s : ClientState) : ClientState :=
  if s.pendingLogIds ≠ [] then
    { s with
        pendingLogIds := []
        analysisSteps := s.analysisSteps.map (fun st =>
          if st.status = .in_progress then { st with status := .completed } else st) }
  else s

/-- The `structureComplete` inside `pollForAnalysis`: a pending log's wait ends
once `is_structure_analyzed` is set, or immediately for a STATE-intent log
(whose structural analysis is skipped). -/
def structureComplete (log : RawLog) : Bool :=
  log.is_structure_analyzed || (log.intent == some LogIntent.state)

/-- Modelled from the spec: the backend decision whether the Structural
Analyzer is enqueued for an entry. The backend is not part of this
repository's sources (the frontend only observes its flags); the spec states
that for every Entry with intent = state/status the Structural Analyzer is
never enqueued, and that other entries may be enqueued by the conversation
nodes. -/
def structuralAnalyzerEnqueued (log : RawLog) : Bool :=
  !(log.intent == some LogIntent.state)

/-- Completion test of `pollForResearchResult`: the deep-research result has
arrived when `metadata_analysis.deep_research` exists, or `assistant_reply`
is non-empty after trimming and is not the acceptance placeholder. -/
def isResearchResultReady (log : RawLog) : Bool :=
  let hasDeepResearchMeta := (log.metadata_analysis.bind MetadataAnalysis.deep_research).isSome
  let hasRealReply :=
    match log.assistant_reply with
    | some r => jsTrim r != "" && !(r.startsWith "Deep Researchのリクエストを受け付けました")
    | none => false
  hasDeepResearchMeta || hasRealReply

/-- The `||`-chain `log.assistant_reply || log.metadata_analysis?.deep_research?.summary || ''`
used for the result message content. -/
def researchResultContent (log : RawLog) : String :=
  let summary :=
    ((log.metadata_analysis.bind MetadataAnalysis.deep_research).bind
      DeepResearchMeta.summary).getD ""
  match log.assistant_reply with
  | some r => if r != "" then r else summary
  | none => summary

/-- One invocation of `pollForResearchResult`: a no-op when no research log id
is being watched, when the `GET /logs/:id` request fails (the `catch` block
ignores 404s and every other error), or when the result has not arrived yet;
when the result is ready, drop the `researching-` notices, append the
completion notice and the result message, and stop the wait. There is no
branch that reports a failed task. -/
def researchPollStep (s : ClientState) (fetched : Except Unit RawLog)
    (now : Nat) : ClientState :=
  match s.researchLogId with
  | none => s
  | some rid =>
    match fetched with
    | .error _ => s
    | .ok log =>
      if isResearchResultReady log then
        let completionNotice : ChatMessage :=
          { id := "research-complete-" ++ rid, type := .system
            content := "調査が完了しました。", timestamp := now }
        let resultMessage : ChatMessage :=
          { id := "research-result-" ++ rid, type := .assistant
            content := researchResultContent log
            timestamp := now, logId := some rid
            researchSummary :=
              (log.metadata_analysis.bind MetadataAnalysis.deep_research).bind
                DeepResearchMeta.summary
            researchDetails :=
              (log.metadata_analysis.bind MetadataAnalysis.deep_research).bind
                DeepResearchMeta.details
            isResearchCacheHit :=
              (log.metadata_analysis.bind MetadataAnalysis.deep_research).bind
                DeepResearchMeta.is_cache_hit }
        { s with
            messages :=
              (s.messages.filter (fun m => !(m.id.startsWith "researching-"))) ++
                [completionNotice, resultMessage]
            isResearching := false
            researchLogId := none }
      else s

/-- The `n` consecutive ticks of the deep-research polling interval, each
fetching the same log snapshot. -/
def iterateResearchPoll (s : ClientState) (fetched : Except Unit RawLog)
    (now : Nat) : Nat → ClientState
  | 0 => s
  | n + 1 => researchPollStep (iterateResearchPoll s fetched now n) fetched now

/-! ## Concrete instances used by witnesses and counterexamples -/

/-- A state-intent log whose context analysis finished but whose structural
analysis never ran. -/
def stateLogExample : RawLog :=
  { id := "log-state-1", intent := some LogIntent.state, is_analyzed := true }

/-- The result log of a deep-research background task that failed: no
`deep_research` metadata and no assistant reply ever appear on it. -/
def failedTaskResultLog : RawLog := { id := "research-result-log-1" }

/-- A client waiting on a deep-research result log. -/
def researchWaitState : ClientState :=
  { isResearching := true, researchLogId := some "research-result-log-1" }

/-- A client about to submit, holding a continuing thread id. -/
def submitStateExample : ClientState :=
  { input := " hello world ", continuingThreadId := some "thread-1" }

/-- A create response carrying a thread id. -/
def ackExample : AckResponse :=
  { message := "受け取りました。", log_id := "log-9", thread_id := some "thread-2" }

/-- A 20-character input. -/
def longInputExample : String := "aaaaaaaaaaaaaaaaaaaa"

/-- A recommendation store with one recommendation on screen. -/
def shownRecState : RecommendationState :=
  { recommendations := [{ id := "rec-1", title := "t" }]
    isVisible := true
    displayMessage := none }

/-- A consent-bearing chat message. -/
def consentMessageExample : ChatMessage :=
  { id := "m-1", type := .system, content := "実地調査しますか?", timestamp := 1
    logId := some "log-1", requiresResearchConsent := some true }

/-- A concrete research plan. -/
def planExample : ResearchPlan :=
  { title := "市場調査", topic := "topic", scope := "scope"
    perspectives := ["a", "b"], sanitized_query := "query" }

/-! ## Theorems -/

/-- Claim C3: for every entry whose intent is the state type, the Structural
Analyzer is never enqueued (backend decision, modelled from the spec) and
`is_structure_analyzed` is treated as satisfied without a value: the
`pollForAnalysis` completion test `structureComplete` holds for such a log
regardless of `is_structure_analyzed`, and once context analysis
(`is_analyzed`) is complete the timeline's `isStillAnalyzing` returns false
for it at every clock value, even when `is_structure_analyzed` is false. -/
theorem state_intent_skips_structural (log : RawLog)
    (h : log.intent = some LogIntent.state) :
    structuralAnalyzerEnqueued log = false ∧
    structureComplete log = true ∧
    (log.is_analyzed = true → ∀ now, isStillAnalyzing now log = false) := by
  refine ⟨?_, ?_, ?_⟩
  · simp [structuralAnalyzerEnqueued, h]
  · simp [structureComplete, h]
  · intro ha now
    unfold isStillAnalyzing
    rw [ha, h]
    cases log.is_structure_analyzed <;> simp <;> split <;> simp

/-- Witness for C3 at a concrete state-intent log with
`is_structure_analyzed = false`. -/
theorem state_intent_skips_structural_witness :
    (stateLogExample.intent = some LogIntent.state ∧
      stateLogExample.is_analyzed = true ∧
      stateLogExample.is_structure_analyzed = false) ∧
    structuralAnalyzerEnqueued stateLogExample = false ∧
    structureComplete stateLogExample = true ∧
    isStillAnalyzing 999999 stateLogExample = false := by
  have h := state_intent_skips_structural stateLogExample rfl
  exact ⟨⟨rfl, rfl, rfl⟩, h.1, h.2.1, h.2.2 rfl 999999⟩

/-- Claim C4, evaluated at the failing input: the result log of a failed
deep-research background task (no `metadata_analysis.deep_research`, no
`assistant_reply`) never satisfies the completion test, and one poll tick on
it leaves the client state completely unchanged — still researching, no
message added, no failure surfaced. -/
theorem failed_research_never_surfaced :
    isResearchResultReady failedTaskResultLog = false ∧
    researchPollStep researchWaitState (.ok failedTaskResultLog) 99 = researchWaitState ∧
    researchWaitState.isResearching = true ∧
    researchWaitState.messages = [] := by
  exact ⟨rfl, rfl, rfl, rfl⟩

/-- Claim C5: the create request body carries `thread_id` exactly when the
client holds a non-null, non-empty continuing thread id (otherwise the key is
omitted), and a successful submission stores the response's `thread_id` as
the continuing thread id. -/
theorem createLog_threadId_roundtrip (s : ClientState) (resp : AckResponse)
    (now : Nat) (h1 : jsTrim s.input ≠ "") (h2 : s.isSubmitting = false) :
    (∃ b, (handleSubmit s (.ok resp) now).2 = some b ∧
       b.content = jsTrim s.input ∧ b.content_type = "text" ∧
       (∀ t, b.thread_id = some t ↔ (s.continuingThreadId = some t ∧ t ≠ "")) ∧
       (b.thread_id = none ↔
         (s.continuingThreadId = none ∨ s.continuingThreadId = some ""))) ∧
    (handleSubmit s (.ok resp) now).1.continuingThreadId = resp.thread_id := by
  have hg : ¬ (jsTrim s.input = "" ∨ s.isSubmitting = true) := by
    simp [h1, h2]
  constructor
  · refine ⟨createLogBody (jsTrim s.input) "text" s.continuingThreadId, ?_, rfl, rfl, ?_, ?_⟩
    · simp only [handleSubmit]
      rw [if_neg hg]
    · intro t
      unfold createLogBody
      cases hc : s.continuingThreadId with
      | none => simp
      | some t0 =>
        dsimp only
        by_cases ht : t0 = ""
        · subst ht
          rw [if_neg (by simp)]
          constructor
          · intro hn; cases hn
          · rintro ⟨he, hne⟩
            injection he with he
            exact absurd he.symm hne
        · rw [if_pos (by simpa [bne_iff_ne] using ht)]
          constructor
          · intro he
            injection he with he
            exact ⟨congrArg some he, he ▸ ht⟩
          · exact fun hp => hp.1
    · unfold createLogBody
      cases hc : s.continuingThreadId with
      | none => simp
      | some t0 =>
        dsimp only
        by_cases ht : t0 = ""
        · subst ht
          rw [if_neg (by simp)]
          simp
        · rw [if_pos (by simpa [bne_iff_ne] using ht)]
          constructor
          · intro hn; cases hn
          · rintro (hn | hs)
            · cases hn
            · injection hs with hs; exact absurd hs ht
  · simp only [handleSubmit]
    rw [if_neg hg]
    split <;> try rfl
    split <;> rfl

/-- Witness for C5 at a concrete state and response. -/
theorem createLog_threadId_roundtrip_witness :
    (jsTrim submitStateExample.input ≠ "" ∧ submitStateExample.isSubmitting = false) ∧
    ((∃ b, (handleSubmit submitStateExample (.ok ackExample) 7).2 = some b ∧
        b.content = jsTrim submitStateExample.input ∧ b.content_type = "text" ∧
        (∀ t, b.thread_id = some t ↔
          (submitStateExample.continuingThreadId = some t ∧ t ≠ "")) ∧
        (b.thread_id = none ↔
          (submitStateExample.continuingThreadId = none ∨
            submitStateExample.continuingThreadId = some ""))) ∧
      (handleSubmit submitStateExample (.ok ackExample) 7).1.continuingThreadId =
        ackExample.thread_id) :=
  ⟨⟨by decide, rfl⟩,
    createLog_threadId_roundtrip submitStateExample ackExample 7 (by decide) rfl⟩

/-- Claim C6 counterexample: with recommendations already on screen, an input
of 20 characters whose recommendation request fails leaves the previously
shown recommendations in place and visible — the outcome is not "no
recommendations" (the empty `catch` block does not clear the store). -/
theorem recommendations_error_keeps_stale_cex :
    20 ≤ longInputExample.length ∧
    fetchRecommendations longInputExample (.error ()) shownRecState =
      (shownRecState, true) ∧
    shownRecState.recommendations ≠ [] ∧
    shownRecState.isVisible = true := by
  exact ⟨by decide, rfl, by decide, rfl⟩

/-- Claim C6 (amended): any failure of the recommendation request is swallowed
silently — the request is issued, no error is surfaced (the model has no
error channel because the `catch` block is empty), and the recommendation
store is left exactly unchanged: no new recommendations appear, but
previously displayed ones are not cleared either. -/
theorem recommendations_failure_silent (text : String)
    (s : RecommendationState) (h : 20 ≤ text.length) :
    fetchRecommendations text (.error ()) s = (s, true) := by
  simp [fetchRecommendations, Nat.not_lt.mpr h]

/-- Witness for the amended C6 at a concrete failing request. -/
theorem recommendations_failure_silent_witness :
    20 ≤ longInputExample.length ∧
    fetchRecommendations longInputExample (.error ()) clearRecommendationsState =
      (clearRecommendationsState, true) :=
  ⟨by decide,
    recommendations_failure_silent longInputExample clearRecommendationsState (by decide)⟩

/-- Claim C7: a recommendation request is issued exactly when the input
reaches 20 characters — any shorter input clears the current recommendations
and sends no request — and every input change (re)schedules the fetch with a
500 ms debounce, discarding any previously pending timer. -/
theorem recommendations_min_length_and_debounce :
    (∀ (text : String) (r : Except Unit RecommendationResponse)
        (s : RecommendationState), text.length < 20 →
       fetchRecommendations text r s = (clearRecommendationsState, false)) ∧
    (∀ (text : String) (r : Except Unit RecommendationResponse)
        (s : RecommendationState), 20 ≤ text.length →
       (fetchRecommendations text r s).2 = true) ∧
    (∀ (s : InputDebounceState) (value : String) (now : Nat),
       handleInputChange s value now =
         { input := value, debounce := some (now + 500, value) }) := by
  refine ⟨?_, ?_, ?_⟩
  · intro text r s h
    simp [fetchRecommendations, h]
  · intro text r s h
    simp only [fetchRecommendations, if_neg (Nat.not_lt.mpr h)]
    cases r with
    | ok v => by_cases hv : v.has_recommendations <;> simp [hv]
    | error e => rfl
  · intro s value now
    rfl

/-- Witness for C7: a 5-character input sends nothing and clears; a
20-character input sends the request. -/
theorem recommendations_min_length_and_debounce_witness :
    ("short".length < 20 ∧
      fetchRecommendations "short" (.error ()) shownRecState =
        (clearRecommendationsState, false)) ∧
    (20 ≤ longInputExample.length ∧
      (fetchRecommendations longInputExample (.error ()) shownRecState).2 = true) :=
  ⟨⟨by decide,
      recommendations_min_length_and_debounce.1 "short" (.error ()) shownRecState
        (by decide)⟩,
    ⟨by decide,
      recommendations_min_length_and_debounce.2.1 longInputExample (.error ())
        shownRecState (by decide)⟩⟩

/-- Claim C8: while a deep-research execution is in flight, both deep-research
handlers are guarded no-ops: the state is untouched and no conversation
request is issued, so one client can have at most one research execution in
flight. -/
theorem research_handlers_noop_when_researching (s : ClientState)
    (msg : ChatMessage) (plan : ResearchPlan) (pmid : String)
    (res res2 : Except Unit ConversationResponse) (now now2 : Nat)
    (h : s.isResearching = true) :
    handleDeepResearch s msg res now = (s, none) ∧
    handleConfirmResearchPlan s plan pmid res2 now2 = (s, none) := by
  constructor
  · unfold handleDeepResearch
    rw [if_pos h]
  · unfold handleConfirmResearchPlan
    rw [if_pos h]

/-- Witness for C8 at a concrete in-flight state. -/
theorem research_handlers_noop_when_researching_witness :
    researchWaitState.isResearching = true ∧
    handleDeepResearch researchWaitState consentMessageExample (.error ()) 3 =
      (researchWaitState, none) ∧
    handleConfirmResearchPlan researchWaitState planExample "pm-1" (.error ()) 4 =
      (researchWaitState, none) :=
  ⟨rfl,
    (research_handlers_noop_when_researching researchWaitState consentMessageExample
      planExample "pm-1" (.error ()) (.error ()) 3 4 rfl).1,
    (research_handlers_noop_when_researching researchWaitState consentMessageExample
      planExample "pm-1" (.error ()) (.error ()) 3 4 rfl).2⟩

/-- A raw log with a non-null but empty assistant reply and a structural
analysis whose probing question is the empty string. -/
def emptyReplyLog : RawLog :=
  { id := "L1"
    assistant_reply := some ""
    structural_analysis := some
      { relationship_type := "NEW", relationship_reason := ""
        updated_structural_issue := "", probing_question := "" } }

/-- Claim C9 counterexample: for a log whose `assistant_reply` is the empty
string (non-null) and whose structural analysis carries an empty
`probing_question`, the claim predicts three messages with an 'assistant'
second message; `rawLogToMessages` actually produces two messages whose
second is a 'system' fallback — the code branches on JavaScript truthiness,
not on null-ness. -/
theorem rawLogToMessages_truthiness_cex :
    emptyReplyLog.assistant_reply ≠ none ∧
    emptyReplyLog.structural_analysis ≠ none ∧
    (rawLogToMessages emptyReplyLog).length = 2 ∧
    ((rawLogToMessages emptyReplyLog).getLast?.map ChatMessage.type) =
      some MsgType.system := by
  refine ⟨by decide, by decide, rfl, rfl⟩

/-- Claim C9 (amended): `rawLogToMessages` returns exactly two messages when
`structural_analysis` is null or its `probing_question` is empty and exactly
three when the probing question is non-empty: first the user's message with
the log content (voice-flagged iff `content_type = 'voice'`), then an
'assistant' message with `assistant_reply` when that reply is non-null and
non-empty — otherwise a 'system' message with the fixed fallback text — and
finally, in the three-message case, an 'ai-question' message carrying the
probing question. -/
theorem rawLogToMessages_shape (log : RawLog) :
    (∃ m0, (rawLogToMessages log)[0]? = some m0 ∧
       m0.type = MsgType.user ∧ m0.content = log.content ∧
       (m0.isVoiceInput = some true ↔ log.content_type = "voice")) ∧
    (∃ m1, (rawLogToMessages log)[1]? = some m1 ∧
       (∀ r, log.assistant_reply = some r → r ≠ "" →
          m1.type = MsgType.assistant ∧ m1.content = r) ∧
       ((log.assistant_reply = none ∨ log.assistant_reply = some "") →
          m1.type = MsgType.system ∧ m1.content = "受け取りました。")) ∧
    (∀ sa, log.structural_analysis = some sa → sa.probing_question ≠ "" →
       (rawLogToMessages log).length = 3 ∧
       ∃ m2, (rawLogToMessages log)[2]? = some m2 ∧
         m2.type = MsgType.aiQuestion ∧ m2.content = sa.probing_question) ∧
    ((log.structural_analysis = none ∨
        (∃ sa, log.structural_analysis = some sa ∧ sa.probing_question = "")) →
       (rawLogToMessages log).length = 2) := by
  have hlist : ∃ tail, rawLogToMessages log = userMsgOf log :: ackMsgOf log :: tail := by
    simp only [rawLogToMessages]
    cases hsa : log.structural_analysis with
    | none => exact ⟨[], rfl⟩
    | some sa =>
      dsimp only
      by_cases hq : (sa.probing_question != "") = true
      · rw [if_pos hq]; exact ⟨[aiMsgOf log sa], rfl⟩
      · rw [if_neg hq]; exact ⟨[], rfl⟩
  obtain ⟨tail, htail⟩ := hlist
  refine ⟨⟨userMsgOf log, ?_, rfl, rfl, ?_⟩, ⟨ackMsgOf log, ?_, ?_, ?_⟩, ?_, ?_⟩
  · rw [htail]; simp
  · unfold userMsgOf
    dsimp only
    constructor
    · intro hv
      exact eq_of_beq (Option.some.inj hv)
    · intro hv
      simp [hv]
  · rw [htail]; simp
  · intro r hr hne
    have hb : (r != "") = true := by simpa [bne_iff_ne] using hne
    unfold ackMsgOf
    rw [hr]
    dsimp only
    rw [if_pos (by simpa [strTruthy] using hb), if_pos hb]
    exact ⟨rfl, rfl⟩
  · intro hcase
    unfold ackMsgOf
    rcases hcase with hn | hs
    · rw [hn]; exact ⟨rfl, rfl⟩
    · rw [hs]; exact ⟨rfl, rfl⟩
  · intro sa hsa hq
    have hb : (sa.probing_question != "") = true := by simpa [bne_iff_ne] using hq
    have h3 : rawLogToMessages log =
        [userMsgOf log, ackMsgOf log, aiMsgOf log sa] := by
      simp only [rawLogToMessages]
      rw [hsa]
      dsimp only
      rw [if_pos hb]
      rfl
    rw [h3]
    exact ⟨rfl, aiMsgOf log sa, by simp, rfl, rfl⟩
  · intro hcase
    simp only [rawLogToMessages]
    rcases hcase with hn | ⟨sa, hsa, hq⟩
    · rw [hn]
      rfl
    · rw [hsa]
      dsimp only
      rw [if_neg (by simp [hq])]
      rfl

/-- A structural analysis with a non-empty probing question. -/
def probedAnalysis : StructuralAnalysis :=
  { relationship_type := "ADDITIVE", relationship_reason := "reason"
    updated_structural_issue := "issue", probing_question := "なぜ?" }

/-- A voice log with a non-empty assistant reply and a probing question. -/
def probedVoiceLog : RawLog :=
  { id := "L2", content := "思考メモ", content_type := "voice"
    assistant_reply := some "わかりました。"
    structural_analysis := some probedAnalysis }

/-- Witness for the amended C9 at a concrete voice log with a non-empty reply
and probing question. -/
theorem rawLogToMessages_shape_witness :
    (rawLogToMessages probedVoiceLog).length = 3 ∧
    ((rawLogToMessages probedVoiceLog)[1]?.map ChatMessage.type) =
      some MsgType.assistant := by
  obtain ⟨⟨m0, h0, _⟩, ⟨m1, h1, h1a, _⟩, h2, _⟩ := rawLogToMessages_shape probedVoiceLog
  have hlen : (rawLogToMessages probedVoiceLog).length = 3 :=
    (h2 probedAnalysis rfl (by decide)).1
  have hm1 := h1a "わかりました。" rfl (by decide)
  refine ⟨hlen, ?_⟩
  rw [h1]
  simp [hm1.1]

/-- Claim C1: the deep-research flow is two-phase. Phase 1: when the user
approves planning and no research is in flight, `handleDeepResearch` sends
exactly one conversation request carrying `research_approved = true` (and no
confirmation flag, no plan payload) and displays the returned plan as the
last message — leaving `isResearching` false and the watched research log id
untouched, so no execution or result polling starts. Phase 2: execution is
triggered only by `handleConfirmResearchPlan`, whose single request carries
`research_plan_confirmed = true` together with the exact confirmed plan and
its sanitized query; afterwards the client displays the immediate
acknowledgment reply as the last message and begins polling the background
task's `result_log_id`. -/
theorem deep_research_two_phase (s : ClientState) (msg : ChatMessage)
    (r : ConversationResponse) (s2 : ClientState) (plan : ResearchPlan)
    (pmid : String) (r2 : ConversationResponse) (now now2 : Nat)
    (h1 : s.isResearching = false) (h2 : s2.isResearching = false) :
    (∃ req, (handleDeepResearch s msg (.ok r) now).2 = some req ∧
       req.research_approved = some true ∧
       req.research_plan_confirmed = none ∧
       req.research_plan = none) ∧
    (handleDeepResearch s msg (.ok r) now).1.isResearching = false ∧
    (handleDeepResearch s msg (.ok r) now).1.researchLogId = s.researchLogId ∧
    (∃ pm, (handleDeepResearch s msg (.ok r) now).1.messages.getLast? = some pm ∧
       pm.type = MsgType.assistant ∧ pm.content = r.response ∧
       pm.researchPlan = r.research_plan) ∧
    (∃ req2, (handleConfirmResearchPlan s2 plan pmid (.ok r2) now2).2 = some req2 ∧
       req2.research_plan_confirmed = some true ∧
       req2.research_plan = some plan ∧
       req2.message = plan.sanitized_query ∧
       req2.research_approved = none) ∧
    (handleConfirmResearchPlan s2 plan pmid (.ok r2) now2).1.isResearching = true ∧
    (∃ am, (handleConfirmResearchPlan s2 plan pmid (.ok r2) now2).1.messages.getLast? =
        some am ∧ am.type = MsgType.system ∧ am.content = r2.response) ∧
    (∀ t rid, r2.background_task = some t → t.result_log_id = some rid → rid ≠ "" →
       (handleConfirmResearchPlan s2 plan pmid (.ok r2) now2).1.researchLogId =
         some rid) := by
  have hng : ¬ s.isResearching = true := by rw [h1]; exact Bool.false_ne_true
  have hng2 : ¬ s2.isResearching = true := by rw [h2]; exact Bool.false_ne_true
  refine ⟨?_, ?_, ?_, ?_, ?_, ?_, ?_, ?_⟩
  · have hreq : (handleDeepResearch s msg (.ok r) now).2 =
        some (converseBody
          (match findUserMessage s.messages msg.logId with
           | some m => if m.content != "" then m.content else msg.content
           | none => msg.content)
          { researchApproved := true, threadId := s.continuingThreadId }) := by
      simp only [handleDeepResearch]
      rw [if_neg hng]
    exact ⟨_, hreq, rfl, rfl, rfl⟩
  · simp only [handleDeepResearch]
    rw [if_neg hng]
    exact h1
  · simp only [handleDeepResearch]
    rw [if_neg hng]
  · simp only [handleDeepResearch]
    rw [if_neg hng]
    dsimp only
    rw [List.getLast?_concat]
    exact ⟨_, rfl, rfl, rfl, rfl⟩
  · have hreq2 : (handleConfirmResearchPlan s2 plan pmid (.ok r2) now2).2 =
        some (converseBody plan.sanitized_query
          { researchPlanConfirmed := true, researchPlan := some plan
            threadId := s2.continuingThreadId }) := by
      simp only [handleConfirmResearchPlan]
      rw [if_neg hng2]
    exact ⟨_, hreq2, rfl, rfl, rfl, rfl⟩
  · simp only [handleConfirmResearchPlan]
    rw [if_neg hng2]
  · simp only [handleConfirmResearchPlan]
    rw [if_neg hng2]
    dsimp only
    rw [List.getLast?_concat]
    exact ⟨_, rfl, rfl, rfl⟩
  · intro t rid ht hrid hne
    simp only [handleConfirmResearchPlan]
    rw [if_neg hng2]
    dsimp only
    rw [ht]
    dsimp only [Option.or]
    rw [hrid]
    dsimp only
    rw [if_pos (by simpa [bne_iff_ne] using hne)]

/-- A client in the middle of a structural-analysis wait. -/
def pendingAnalysisState : ClientState :=
  { pendingLogIds := ["log-7"], analysisSteps := initialAnalysisSteps }

/-- A plan-phase conversation response. -/
def planResponseExample : ConversationResponse :=
  { response := "調査計画です。", research_plan := some planExample }

/-- An execution-phase conversation response with a background task handle. -/
def execResponseExample : ConversationResponse :=
  { response := "調査を受け付けました。"
    background_task := some
      { task_id := "task-1", task_type := "deep_research"
        status := .queued, message := "queued"
        result_log_id := some "research-result-log-1" } }

/-- An idle client state. -/
def idleStateExample : ClientState := {}

/-- Witness for C1 at concrete states, plan and responses. -/
theorem deep_research_two_phase_witness :
    (idleStateExample.isResearching = false) ∧
    ((∃ req, (handleDeepResearch idleStateExample consentMessageExample
          (.ok planResponseExample) 11).2 = some req ∧
        req.research_approved = some true ∧
        req.research_plan_confirmed = none ∧
        req.research_plan = none) ∧
      (handleDeepResearch idleStateExample consentMessageExample
          (.ok planResponseExample) 11).1.isResearching = false ∧
      (handleDeepResearch idleStateExample consentMessageExample
          (.ok planResponseExample) 11).1.researchLogId =
        idleStateExample.researchLogId ∧
      (∃ pm, (handleDeepResearch idleStateExample consentMessageExample
            (.ok planResponseExample) 11).1.messages.getLast? = some pm ∧
         pm.type = MsgType.assistant ∧ pm.content = planResponseExample.response ∧
         pm.researchPlan = planResponseExample.research_plan) ∧
      (∃ req2, (handleConfirmResearchPlan idleStateExample planExample "pm-1"
            (.ok execResponseExample) 12).2 = some req2 ∧
         req2.research_plan_confirmed = some true ∧
         req2.research_plan = some planExample ∧
         req2.message = planExample.sanitized_query ∧
         req2.research_approved = none) ∧
      (handleConfirmResearchPlan idleStateExample planExample "pm-1"
          (.ok execResponseExample) 12).1.isResearching = true ∧
      (∃ am, (handleConfirmResearchPlan idleStateExample planExample "pm-1"
            (.ok execResponseExample) 12).1.messages.getLast? = some am ∧
         am.type = MsgType.system ∧ am.content = execResponseExample.response) ∧
      (∀ t rid, execResponseExample.background_task = some t →
         t.result_log_id = some rid → rid ≠ "" →
         (handleConfirmResearchPlan idleStateExample planExample "pm-1"
             (.ok execResponseExample) 12).1.researchLogId = some rid)) :=
  ⟨rfl,
    deep_research_two_phase idleStateExample consentMessageExample
      planResponseExample idleStateExample planExample "pm-1"
      execResponseExample 11 12 rfl rfl⟩

/-- Helper: a poll tick on a log whose result has not arrived leaves the
client state unchanged (both when no id is watched and when the fetched log
does not pass the completion test). -/
theorem researchPollStep_not_ready (s : ClientState) (log : RawLog) (now : Nat)
    (h : isResearchResultReady log = false) :
    researchPollStep s (.ok log) now = s := by
  unfold researchPollStep
  cases s.researchLogId with
  | none => rfl
  | some rid =>
    dsimp only
    rw [if_neg (by simp [h])]

/-- Helper: iterating poll ticks on a never-completing log is the identity. -/
theorem iterateResearchPoll_not_ready (s : ClientState) (log : RawLog)
    (now : Nat) (h : isResearchResultReady log = false) :
    ∀ n, iterateResearchPoll s (.ok log) now n = s
  | 0 => rfl
  | n + 1 => by
    rw [iterateResearchPoll, iterateResearchPoll_not_ready s log now h n,
      researchPollStep_not_ready s log now h]

/-- Claim C2 counterexample: the deep-research polling effect installs no
give-up `setTimeout` at all, and after 2400 ticks of its 3-second interval —
two hours of waiting on a task that never produces a result — the client
state is bit-for-bit unchanged and still marked as researching. The
deep-research wait is therefore not bounded by a client-side timeout on the
order of minutes, and nothing is ever marked as stalled. -/
theorem research_poll_unbounded_cex :
    researchPollingEffect.timeoutMs = none ∧
    iterateResearchPoll researchWaitState (.ok failedTaskResultLog) 0 2400 =
      researchWaitState ∧
    researchWaitState.isResearching = true :=
  ⟨rfl, iterateResearchPoll_not_ready researchWaitState failedTaskResultLog 0 rfl 2400,
    rfl⟩

/-- Claim C2 (amended): the structural-analysis poll is fixed-interval (3 s)
and bounded by a two-minute client-side timeout whose handler clears every
pending wait and displays the in-progress steps as completed, adding no
error message; the deep-research poll is fixed-interval (3 s) but carries no
client-side timeout — on a log that never completes, any number of ticks
leaves the state unchanged and the client keeps waiting. -/
theorem polling_interval_and_timeout (s sr : ClientState) (log : RawLog)
    (now : Nat) (n : Nat) (h : isResearchResultReady log = false) :
    analysisPollingEffect = { intervalMs := 3000, timeoutMs := some 120000 } ∧
    (analysisPollTimeoutFire s).pendingLogIds = [] ∧
    (analysisPollTimeoutFire s).messages = s.messages ∧
    (s.pendingLogIds ≠ [] → ∀ st ∈ (analysisPollTimeoutFire s).analysisSteps,
       st.status ≠ StepStatus.in_progress) ∧
    researchPollingEffect = { intervalMs := 3000, timeoutMs := none } ∧
    iterateResearchPoll sr (.ok log) now n = sr := by
  refine ⟨rfl, ?_, ?_, ?_, rfl, iterateResearchPoll_not_ready sr log now h n⟩
  · unfold analysisPollTimeoutFire
    split
    · rfl
    · next hne => exact not_ne_iff.mp hne
  · unfold analysisPollTimeoutFire
    split <;> rfl
  · intro hp st hst
    unfold analysisPollTimeoutFire at hst
    rw [if_pos hp] at hst
    dsimp only at hst
    obtain ⟨st0, _, hmap⟩ := List.mem_map.mp hst
    by_cases h0 : st0.status = StepStatus.in_progress
    · rw [if_pos h0] at hmap
      rw [← hmap]
      intro hcon
      cases hcon
    · rw [if_neg h0] at hmap
      rw [← hmap]
      exact h0

/-- Witness for the amended C2: a concrete pending analysis wait that the
timeout clears, and a concrete research wait that 40 ticks (two minutes)
leave untouched. -/
theorem polling_interval_and_timeout_witness :
    (isResearchResultReady failedTaskResultLog = false) ∧
    ((analysisPollTimeoutFire pendingAnalysisState).pendingLogIds = [] ∧
      (analysisPollTimeoutFire pendingAnalysisState).messages =
        pendingAnalysisState.messages ∧
      (pendingAnalysisState.pendingLogIds ≠ [] →
        ∀ st ∈ (analysisPollTimeoutFire pendingAnalysisState).analysisSteps,
          st.status ≠ StepStatus.in_progress) ∧
      iterateResearchPoll researchWaitState (.ok failedTaskResultLog) 5 40 =
        researchWaitState) := by
  have h := polling_interval_and_timeout pendingAnalysisState researchWaitState
    failedTaskResultLog 5 40 rfl
  exact ⟨rfl, h.2.1, h.2.2.1, h.2.2.2.1, h.2.2.2.2.2⟩

/-! ## Helper lemmas for groupLogsByThread (C10) -/

/-- Concatenation of the log lists of the insertion-ordered thread map. -/
def joinPairs (l : List (String × List RawLog)) : List RawLog :=
  l.flatMap Prod.snd

theorem joinPairs_nil : joinPairs [] = [] := rfl

theorem joinPairs_cons (p : String × List RawLog) (rest : List (String × List RawLog)) :
    joinPairs (p :: rest) = p.2 ++ joinPairs rest := rfl

/-- Pushing one log into the thread map adds exactly that log to the
multiset of stored logs. -/
theorem joinPairs_pushLog (key : String) (log : RawLog) :
    ∀ acc, List.Perm (joinPairs (pushLog key log acc)) (log :: joinPairs acc)
  | [] => by
    simp [pushLog, joinPairs]
  | (k, ls) :: rest => by
    by_cases hk : k = key
    · simp only [pushLog, if_pos hk, joinPairs_cons]
      rw [List.append_assoc, List.singleton_append]
      exact List.perm_middle
    · simp only [pushLog, if_neg hk, joinPairs_cons]
      exact ((joinPairs_pushLog key log rest).append_left ls).trans List.perm_middle

/-- Folding the page's logs into the thread map stores exactly the input
logs (as a multiset). -/
theorem joinPairs_foldl :
    ∀ (items : List RawLog) (acc : List (String × List RawLog)),
      List.Perm
        (joinPairs (items.foldl (fun a log => pushLog (threadKey log) log a) acc))
        (joinPairs acc ++ items)
  | [], acc => by simp
  | log :: items, acc => by
    rw [List.foldl_cons]
    refine (joinPairs_foldl items (pushLog (threadKey log) log acc)).trans ?_
    refine ((joinPairs_pushLog (threadKey log) log acc).append_right items).trans ?_
    rw [List.cons_append]
    exact List.perm_middle.symm

/-- The fully built thread map holds exactly the input logs. -/
theorem joinPairs_buildThreads (items : List RawLog) :
    List.Perm (joinPairs (buildThreads items)) items := by
  have h := joinPairs_foldl items []
  rw [joinPairs_nil, List.nil_append] at h
  exact h

/-- Pushing a log under its own thread key preserves the map invariant:
every stored log lies in the group of its key, and no group is empty. -/
theorem pushLog_invariant (key : String) (log : RawLog) (hkey : threadKey log = key) :
    ∀ acc, (∀ p ∈ acc, (∀ x ∈ p.2, threadKey x = p.1) ∧ p.2 ≠ []) →
      ∀ p ∈ pushLog key log acc, (∀ x ∈ p.2, threadKey x = p.1) ∧ p.2 ≠ []
  | [], _, p, hp => by
    simp only [pushLog, List.mem_singleton] at hp
    subst hp
    refine ⟨?_, by simp⟩
    intro x hx
    rw [List.mem_singleton] at hx
    subst hx
    exact hkey
  | (k, ls) :: rest, hacc, p, hp => by
    by_cases hk : k = key
    · simp only [pushLog, if_pos hk] at hp
      rcases List.mem_cons.mp hp with rfl | hrest
      · have hk0 := hacc (k, ls) (List.mem_cons_self _ _)
        refine ⟨?_, by simp⟩
        intro x hx
        rcases List.mem_append.mp hx with hx | hx
        · exact hk0.1 x hx
        · rw [List.mem_singleton] at hx
          subst hx
          rw [hkey, hk]
      · exact hacc _ (List.mem_cons_of_mem _ hrest)
    · simp only [pushLog, if_neg hk] at hp
      rcases List.mem_cons.mp hp with rfl | hrest
      · exact hacc _ (List.mem_cons_self _ _)
      · exact pushLog_invariant key log hkey rest
          (fun q hq => hacc q (List.mem_cons_of_mem _ hq)) p hrest

/-- The map invariant after folding in any number of logs. -/
theorem buildThreads_invariant_aux :
    ∀ (items : List RawLog) (acc : List (String × List RawLog)),
      (∀ p ∈ acc, (∀ x ∈ p.2, threadKey x = p.1) ∧ p.2 ≠ []) →
      ∀ p ∈ items.foldl (fun a log => pushLog (threadKey log) log a) acc,
        (∀ x ∈ p.2, threadKey x = p.1) ∧ p.2 ≠ []
  | [], _, hacc => hacc
  | log :: items, acc, hacc => by
    rw [List.foldl_cons]
    exact buildThreads_invariant_aux items _
      (pushLog_invariant (threadKey log) log rfl acc hacc)

/-- Every group of the built thread map is keyed correctly and nonempty. -/
theorem buildThreads_invariant (items : List RawLog) :
    ∀ p ∈ buildThreads items, (∀ x ∈ p.2, threadKey x = p.1) ∧ p.2 ≠ [] :=
  buildThreads_invariant_aux items []
    (fun p hp => absurd hp (List.not_mem_nil p))

/-- In a list sorted ascending by `created_at`, every member is at most the
last element — the last element is the newest log. -/
theorem sorted_le_getLast :
    ∀ (l : List RawLog), List.Sorted logLE l →
      ∀ x ∈ l, x.created_at ≤ ((l.getLast?).map RawLog.created_at).getD 0
  | [], _, x, hx => absurd hx (List.not_mem_nil x)
  | a :: l, hs, x, hx => by
    rcases List.mem_cons.mp hx with rfl | hxl
    · cases l with
      | nil => simp
      | cons b t =>
        rw [List.getLast?_cons_cons,
          List.getLast?_eq_getLast (b :: t) (List.cons_ne_nil b t)]
        exact (List.sorted_cons.mp hs).1 _ (List.getLast_mem (List.cons_ne_nil b t))
    · cases l with
      | nil => cases hxl
      | cons b t =>
        rw [List.getLast?_cons_cons]
        exact sorted_le_getLast (b :: t) (List.sorted_cons.mp hs).2 x hxl

/-- Claim C10: `groupLogsByThread` partitions its input — the output groups'
logs are a permutation of the input, every log lies in the (unique) group
keyed by its `thread_id ?? id`, no group is empty, each group is sorted
ascending by `created_at`, the last (newest) log of a group bounds every log
in it, and the groups are ordered descending by that newest `created_at`. -/
theorem groupLogsByThread_partition_sorted (items : List RawLog) :
    List.Perm ((groupLogsByThread items).flatMap ThreadGroup.logs) items ∧
    (∀ g ∈ groupLogsByThread items, ∀ l ∈ g.logs, threadKey l = g.threadKey) ∧
    (∀ g ∈ groupLogsByThread items, g.logs ≠ []) ∧
    (∀ g ∈ groupLogsByThread items, List.Sorted logLE g.logs) ∧
    (∀ g ∈ groupLogsByThread items, ∀ l ∈ g.logs, l.created_at ≤ lastCreated g) ∧
    List.Sorted groupLE (groupLogsByThread items) := by
  have hinv := buildThreads_invariant items
  have hperm_outer : List.Perm (groupLogsByThread items)
      ((buildThreads items).map
        (fun p => ThreadGroup.mk p.1 (List.insertionSort logLE p.2))) :=
    List.perm_insertionSort groupLE _
  refine ⟨?_, ?_, ?_, ?_, ?_, ?_⟩
  · refine (hperm_outer.flatMap_right ThreadGroup.logs).trans ?_
    rw [List.flatMap_map]
    refine (List.Perm.flatMap_left (buildThreads items)
      (fun p _ => List.perm_insertionSort logLE p.2)).trans ?_
    exact joinPairs_buildThreads items
  · intro g hg l hl
    rw [hperm_outer.mem_iff] at hg
    obtain ⟨p, hp, rfl⟩ := List.mem_map.mp hg
    exact (hinv p hp).1 l ((List.mem_insertionSort logLE).mp hl)
  · intro g hg
    rw [hperm_outer.mem_iff] at hg
    obtain ⟨p, hp, rfl⟩ := List.mem_map.mp hg
    intro hnil
    apply (hinv p hp).2
    have hnil2 : List.insertionSort logLE p.2 = [] := hnil
    have hlen := (List.perm_insertionSort logLE p.2).length_eq
    rw [hnil2] at hlen
    exact List.eq_nil_of_length_eq_zero hlen.symm
  · intro g hg
    rw [hperm_outer.mem_iff] at hg
    obtain ⟨p, hp, rfl⟩ := List.mem_map.mp hg
    exact List.sorted_insertionSort logLE p.2
  · intro g hg l hl
    rw [hperm_outer.mem_iff] at hg
    obtain ⟨p, hp, rfl⟩ := List.mem_map.mp hg
    exact sorted_le_getLast _ (List.sorted_insertionSort logLE p.2) l hl
  · exact List.sorted_insertionSort groupLE _

/-- A thread root log. -/
def wlogA : RawLog := { id := "a", created_at := 100 }

/-- A continuation of thread "a". -/
def wlogB : RawLog := { id := "b", thread_id := some "a", created_at := 200 }

/-- An unrelated singleton-thread log. -/
def wlogC : RawLog := { id := "c", created_at := 150 }

/-- Witness for C10 at a concrete three-log page with one two-log thread. -/
theorem groupLogsByThread_partition_sorted_witness :
    List.Perm ((groupLogsByThread [wlogA, wlogB, wlogC]).flatMap ThreadGroup.logs)
      [wlogA, wlogB, wlogC] ∧
    (∀ g ∈ groupLogsByThread [wlogA, wlogB, wlogC], List.Sorted logLE g.logs) ∧
    List.Sorted groupLE (groupLogsByThread [wlogA, wlogB, wlogC]) :=
  ⟨(groupLogsByThread_partition_sorted [wlogA, wlogB, wlogC]).1,
    (groupLogsByThread_partition_sorted [wlogA, wlogB, wlogC]).2.2.2.1,
    (groupLogsByThread_partition_sorted [wlogA, wlogB, wlogC]).2.2.2.2.2⟩

end Plura
